import Mathlib

/-!
# Formal model of the WESAD stress-detection monitoring core

A shallow embedding of the per-user real-time monitoring code of the
`wesad-stress-detection` repository:

* `services.py` — `MLService.predict_stress`, `RealTimeStressMonitor`
  (`__init__`, `start_monitoring`, `stop_monitoring`, `_monitoring_loop`,
  `get_latest_data`), and the module-level `active_monitors` dictionary;
* `database.py` — `store_prediction`;
* `routes/main.py` — `start_realtime`, `stop_realtime`, `monitoring_status`.

Modelling conventions:

* Python dictionaries of sensor values become the `SensorData` structure;
  `dict.get(key, default)` becomes `Option.getD`.
* Wall-clock timestamps (`datetime.now(timezone.utc).isoformat()`) become an
  explicit `now : Nat` argument threaded to every call that reads the clock.
* A `try/except` block becomes an explicit fault oracle (a `Bool` or
  `Option String` argument saying whether the guarded code raised); the
  embedding of the handler is the `except` branch of the source.
* The SQLite prediction table becomes a `List PredRow`; a successful
  `INSERT` appends one row.
* The process-global `active_monitors` dict becomes an association list
  `List (String × Monitor)` threaded through the route handlers.
-/

set_option autoImplicit false

namespace StressApp

/-- One reading of proxy physiological signals, as produced by
`RealTimeStressMonitor._get_live_sensor_data` and consumed through
`dict.get` lookups.  `heart_rate` and `eda` are `Option`s because the
consumers (`predict_stress`, `store_prediction`) defend against the keys
being absent. -/
structure SensorData where
  heart_rate : Option ℚ
  eda : Option ℚ
  temperature : ℚ
  respiration : ℚ
  timestamp : Nat
  source : String
deriving Repr, DecidableEq

/-- The dictionary returned by `MLService.predict_stress`. -/
structure Prediction where
  stress_level : String
  confidence : ℚ
  model_used : String
  timestamp : Nat
  factors : List String
deriving Repr, DecidableEq

/-- The dictionary built in the `except` branch of
`MLService.predict_stress`: `stress_level='baseline'`, `confidence=0.5`,
`model_used='fallback'`, empty factors. -/
def fallbackPrediction (now : Nat) : Prediction :=
  { stress_level := "baseline"
    confidence := 1/2
    model_used := "fallback"
    timestamp := now
    factors := [] }

/-- The body of the `try` block of `MLService.predict_stress`
(`services.py` lines 33-53): threshold classification on heart rate and
electrodermal activity, with `dict.get` defaults 70 and 0.3. -/
def predict_stress_body (sensor_data : SensorData) (model : String) (now : Nat) : Prediction :=
  let hr : ℚ := sensor_data.heart_rate.getD 70
  let eda : ℚ := sensor_data.eda.getD (3/10)
  let res : String × ℚ :=
    if 90 < hr ∨ 7/10 < eda then ("stress", 85/100)
    else if 75 < hr ∨ 1/2 < eda then ("amusement", 70/100)
    else ("baseline", 75/100)
  { stress_level := res.1
    confidence := res.2
    model_used := model
    timestamp := now
    factors := ["Heart Rate: " ++ toString hr, "EDA: " ++ toString eda] }

/-- `MLService.predict_stress` (`services.py` lines 31-62).  The
`exc` oracle says whether the `try` body raised internally; the
`except` branch returns `fallbackPrediction`. -/
def predict_stress (sensor_data : SensorData) (model : String) (now : Nat)
    (exc : Option String) : Prediction :=
  match exc with
  | some _ => fallbackPrediction now
  | none => predict_stress_body sensor_data model now

/-- One row of the `predictions` table, as inserted by
`database.store_prediction`.  The `features` column holds
`json.dumps(features)`; we keep the structured value, which carries the
same information. -/
structure PredRow where
  timestamp : Nat
  prediction : String
  probability : ℚ
  user_id : String
  features : SensorData
  model_used : String
  explanation_factors : List String
  heart_rate : Option ℚ
  stress_score : ℚ
deriving Repr, DecidableEq

/-- `database.store_prediction` (`database.py` lines 68-111).  `db` is the
current `predictions` table, `dbOk` the oracle for whether the SQLite
calls inside the `try` block succeed; on failure the `except` branch
returns `None` and the table is unchanged.  On success one row is
appended: `heart_rate` is extracted from the features, and
`stress_score = confidence if stress_level == 'stress' else (1 - confidence)`.
The returned `Option Nat` is `lastrowid` (`None` on failure). -/
def store_prediction (stress_level : String) (confidence : ℚ) (features : SensorData)
    (user_id : String) (model_used : String) (factors : List String)
    (now : Nat) (dbOk : Bool) (db : List PredRow) : List PredRow × Option Nat :=
  if dbOk then
    let heart_rate : Option ℚ := features.heart_rate
    let stress_score : ℚ := if stress_level = "stress" then confidence else 1 - confidence
    let row : PredRow :=
      { timestamp := now
        prediction := stress_level
        probability := confidence
        user_id := user_id
        features := features
        model_used := model_used
        explanation_factors := factors
        heart_rate := heart_rate
        stress_score := stress_score }
    (db ++ [row], some (db.length + 1))
  else
    (db, none)

/-- C1: every row persisted by a successful `store_prediction` call carries
`stress_score = confidence` when the stored label is `"stress"` and
`stress_score = 1 - confidence` otherwise; the score is recomputed from
label and confidence at store time.  A failed store leaves the table
unchanged. -/
theorem c1_store_prediction_stress_score :
    ∀ (stress_level : String) (confidence : ℚ) (features : SensorData)
      (user_id : String) (model_used : String) (factors : List String)
      (now : Nat) (db : List PredRow),
      (∃ row : PredRow,
        (store_prediction stress_level confidence features user_id model_used factors
          now true db).1 = db ++ [row] ∧
        row.prediction = stress_level ∧
        row.probability = confidence ∧
        row.stress_score = (if stress_level = "stress" then confidence else 1 - confidence)) ∧
      (store_prediction stress_level confidence features user_id model_used factors
          now false db) = (db, none) := by
  intro stress_level confidence features user_id model_used factors now db
  refine ⟨⟨{ timestamp := now,
             prediction := stress_level,
             probability := confidence,
             user_id := user_id,
             features := features,
             model_used := model_used,
             explanation_factors := factors,
             heart_rate := features.heart_rate,
             stress_score := if stress_level = "stress" then confidence else 1 - confidence },
    rfl, rfl, rfl, rfl⟩, rfl⟩

/-- C7: `predict_stress` never propagates an internal failure: when the
`try` body raises it returns the fallback classification with label
`"baseline"`, confidence `0.5`, `model_used = "fallback"`; otherwise it
returns the result of the classification body. -/
theorem c7_predict_stress_fallback_on_failure :
    ∀ (sensor_data : SensorData) (model : String) (now : Nat) (e : String),
      predict_stress sensor_data model now (some e) = fallbackPrediction now ∧
      (fallbackPrediction now).stress_level = "baseline" ∧
      (fallbackPrediction now).confidence = 1/2 ∧
      (fallbackPrediction now).model_used = "fallback" ∧
      predict_stress sensor_data model now none = predict_stress_body sensor_data model now := by
  intro sensor_data model now e
  exact ⟨rfl, rfl, rfl, rfl, rfl⟩

/-- A sample reading used by the concrete counterexamples: heart rate 80,
electrodermal activity 0.3. -/
def sdExample : SensorData :=
  { heart_rate := some 80
    eda := some (3/10)
    temperature := 32
    respiration := 16
    timestamp := 0
    source := "simulated" }

/-- C8 counterexample: two invocations of `predict_stress` on the same
sensor data and model, made at different wall-clock instants, return
predictions that are NOT equal in every field — the `timestamp` field
records the clock at call time — although label, confidence, model and
factors agree. -/
theorem c8_predict_stress_timestamp_counterexample :
    predict_stress sdExample "RandomForest" 0 none ≠
      predict_stress sdExample "RandomForest" 1 none ∧
    (predict_stress sdExample "RandomForest" 0 none).timestamp ≠
      (predict_stress sdExample "RandomForest" 1 none).timestamp ∧
    (predict_stress sdExample "RandomForest" 0 none).stress_level =
      (predict_stress sdExample "RandomForest" 1 none).stress_level := by
  refine ⟨?_, by decide, rfl⟩
  intro h
  have : (predict_stress sdExample "RandomForest" 0 none).timestamp =
      (predict_stress sdExample "RandomForest" 1 none).timestamp := by rw [h]
  exact absurd this (by decide)

/-- C8 amended: `predict_stress` is a pure function of its inputs, and two
invocations on equal sensor data with the same model and fault oracle
return predictions equal in every field except `timestamp`, which records
the wall-clock instant of the call; with the clock fixed the result is
identical. -/
theorem c8_predict_stress_deterministic_modulo_timestamp :
    ∀ (sensor_data : SensorData) (model : String) (t1 t2 : Nat),
      predict_stress sensor_data model t1 none =
        { predict_stress sensor_data model t2 none with timestamp := t1 } ∧
      (predict_stress sensor_data model t1 none).stress_level =
        (predict_stress sensor_data model t2 none).stress_level ∧
      (predict_stress sensor_data model t1 none).confidence =
        (predict_stress sensor_data model t2 none).confidence ∧
      (predict_stress sensor_data model t1 none).model_used =
        (predict_stress sensor_data model t2 none).model_used ∧
      (predict_stress sensor_data model t1 none).factors =
        (predict_stress sensor_data model t2 none).factors := by
  intro sensor_data model t1 t2
  exact ⟨rfl, rfl, rfl, rfl, rfl⟩

/-- A user identity as seen by the monitoring core (`current_user` in the
routes): an opaque id plus a username used only for logging. -/
structure User where
  id : String
  username : String
deriving Repr, DecidableEq

/-- The state of one `RealTimeStressMonitor` (`services.py` lines 65-100).
`has_ml` / `has_socketio` record whether `ml_service_instance` /
`socketio_instance` are not `None`; `has_database` records whether the
lazy `import database` in `__init__` succeeded (on `ImportError` the
handle is `None`); `has_thread` records whether a loop thread was
spawned. -/
structure Monitor where
  user : User
  has_ml : Bool
  has_socketio : Bool
  active : Bool
  has_thread : Bool
  latest_sensor_data : Option SensorData
  has_database : Bool
deriving Repr, DecidableEq

/-- `RealTimeStressMonitor.__init__`: inactive, no thread, empty
`latest_sensor_data`; the database handle is bound iff the lazy import
succeeded (`db_import_ok`). -/
def mkMonitor (user : User) (has_ml has_socketio db_import_ok : Bool) : Monitor :=
  { user := user
    has_ml := has_ml
    has_socketio := has_socketio
    active := false
    has_thread := false
    latest_sensor_data := none
    has_database := db_import_ok }

/-- `RealTimeStressMonitor.start_monitoring`: if not active, set the flag
and spawn the loop thread; idempotent otherwise. -/
def start_monitoring (m : Monitor) : Monitor :=
  if !m.active then { m with active := true, has_thread := true } else m

/-- `RealTimeStressMonitor.stop_monitoring`: clear the cooperative
cancellation flag. -/
def stop_monitoring (m : Monitor) : Monitor :=
  { m with active := false }

/-- The process-wide `active_monitors` dictionary of `services.py`,
keyed by `str(user.id)`. -/
abbrev Registry := List (String × Monitor)

/-- Outcome of the `/start-realtime` route. -/
inductive StartResult
  | success
  | already_active
deriving Repr, DecidableEq

/-- Outcome of the `/stop-realtime` route. -/
inductive StopResult
  | success
  | not_active
deriving Repr, DecidableEq

/-- `start_realtime` (`routes/main.py` lines 66-89): if the user id is
already a key of `active_monitors`, answer `already_active` without
touching the registry; otherwise construct a monitor (with the global
`ml_service` bound and `socketio_instance = None`), register it and start
it. -/
def start_realtime (u : User) (db_import_ok : Bool) (reg : Registry) :
    Registry × StartResult :=
  if (reg.lookup u.id).isSome then
    (reg, .already_active)
  else
    let monitor := start_monitoring (mkMonitor u true false db_import_ok)
    (reg ++ [(u.id, monitor)], .success)

/-- `stop_realtime` (`routes/main.py` lines 92-109): if present, pop the
user's monitor from the registry and stop it; otherwise answer
`not_active` with the registry untouched. -/
def stop_realtime (u : User) (reg : Registry) : Registry × StopResult :=
  if (reg.lookup u.id).isSome then
    (reg.filter (fun p => p.1 != u.id), .success)
  else
    (reg, .not_active)

/-- The snapshot dictionary returned by
`RealTimeStressMonitor.get_latest_data`; `source` is `none` on the
branches whose dictionary has no `source` key. -/
structure Snapshot where
  stress_level : String
  confidence : ℚ
  timestamp : Nat
  status : String
  source : Option String
deriving Repr, DecidableEq

/-- The initial placeholder returned by `get_latest_data` when no reading
has been cached yet: baseline, confidence 0.4, status `No data yet`. -/
def placeholderSnapshot (now : Nat) : Snapshot :=
  { stress_level := "baseline"
    confidence := 2/5
    timestamp := now
    status := "No data yet"
    source := none }

/-- The dictionary returned by the `except` branch of `get_latest_data`. -/
def errorSnapshot (now : Nat) : Snapshot :=
  { stress_level := "baseline"
    confidence := 2/5
    timestamp := now
    status := "Error"
    source := none }

/-- `RealTimeStressMonitor.get_latest_data` (`services.py` lines 166-200).
`exc` is the oracle for the `try` block raising; `predict_exc` is passed
on to `predict_stress`.  With no cached reading the placeholder is
returned; otherwise the cached reading is (re-)classified — through
`predict_stress` when an ML service is bound, else a literal fallback —
and an `Active` snapshot is built from it. -/
def get_latest_data (m : Monitor) (now : Nat) (exc : Bool)
    (predict_exc : Option String) : Snapshot :=
  match m.latest_sensor_data with
  | none => placeholderSnapshot now
  | some sd =>
    if exc then errorSnapshot now
    else
      let prediction :=
        if m.has_ml then predict_stress sd "RandomForest" now predict_exc
        else
          { stress_level := "baseline"
            confidence := 2/5
            model_used := "fallback"
            timestamp := now
            factors := [] }
      { stress_level := prediction.stress_level
        confidence := prediction.confidence
        timestamp := sd.timestamp
        status := "Active"
        source := some sd.source }

/-- Outcome of the `/monitoring-status` route. -/
inductive StatusResult
  | active (latest_data : Snapshot)
  | inactive
deriving Repr, DecidableEq

/-- `monitoring_status` (`routes/main.py` lines 112-135): read-only; if
the user id is registered, report active together with the monitor's
latest data, else report inactive. -/
def monitoring_status (u : User) (reg : Registry) (now : Nat) (exc : Bool)
    (predict_exc : Option String) : StatusResult :=
  match reg.lookup u.id with
  | some monitor => .active (get_latest_data monitor now exc predict_exc)
  | none => .inactive

/-- One registry operation, as issued by the three routes. -/
inductive RegOp
  | start (u : User) (db_import_ok : Bool)
  | stop (u : User)
  | status (u : User)
deriving Repr, DecidableEq

/-- Effect of one route call on the registry (status is read-only). -/
def applyOp (reg : Registry) (op : RegOp) : Registry :=
  match op with
  | .start u db_import_ok => (start_realtime u db_import_ok reg).1
  | .stop u => (stop_realtime u reg).1
  | .status _ => reg

/-- The registry reached from the initial empty `active_monitors` after a
sequence of route calls. -/
def runOps (ops : List RegOp) : Registry :=
  ops.foldl applyOp []

/-- Number of registry entries stored under a given user id. -/
def keyCount (uid : String) (reg : Registry) : Nat :=
  reg.countP (fun p => p.1 == uid)

theorem keyCount_append (uid : String) (l1 l2 : Registry) :
    keyCount uid (l1 ++ l2) = keyCount uid l1 + keyCount uid l2 :=
  List.countP_append _ _ _

theorem keyCount_eq_zero_of_lookup_none {uid : String} {reg : Registry}
    (h : reg.lookup uid = none) : keyCount uid reg = 0 := by
  induction reg with
  | nil => rfl
  | cons p rest ih =>
    rcases p with ⟨k, m⟩
    by_cases hk : uid = k
    · subst hk
      simp [List.lookup_cons] at h
    · have h1 : (uid == k) = false := beq_false_of_ne hk
      have h2 : (k == uid) = false := beq_false_of_ne (Ne.symm hk)
      rw [List.lookup_cons, h1] at h
      simp only [keyCount, List.countP_cons, h2, if_false, Nat.add_zero] at ih ⊢
      exact ih h

theorem keyCount_filter_le (uid : String) (q : String × Monitor → Bool) (reg : Registry) :
    keyCount uid (reg.filter q) ≤ keyCount uid reg := by
  unfold keyCount
  rw [List.countP_filter]
  exact List.countP_mono_left (fun x _ hx => (Bool.and_elim_left hx))

/-- Each route call preserves the key-multiplicity bound of the registry. -/
theorem applyOp_keyCount_le (reg : Registry) (op : RegOp)
    (h : ∀ uid, keyCount uid reg ≤ 1) : ∀ uid, keyCount uid (applyOp reg op) ≤ 1 := by
  intro uid
  match op with
  | .status u => exact h uid
  | .start u ok =>
    show keyCount uid (start_realtime u ok reg).1 ≤ 1
    unfold start_realtime
    cases hl : reg.lookup u.id with
    | some m =>
      simp only [hl, Option.isSome_some, if_true]
      exact h uid
    | none =>
      have hnone : reg.lookup u.id = none := hl
      simp only [hl, Option.isSome_none, Bool.false_eq_true, if_false]
      rw [keyCount_append]
      by_cases hid : u.id = uid
      · subst hid
        rw [keyCount_eq_zero_of_lookup_none hnone]
        simp [keyCount, List.countP_cons]
      · have hz : keyCount uid [(u.id, start_monitoring (mkMonitor u true false ok))] = 0 := by
          simp [keyCount, List.countP_cons, beq_false_of_ne hid]
        rw [hz, Nat.add_zero]
        exact h uid
  | .stop u =>
    show keyCount uid (stop_realtime u reg).1 ≤ 1
    unfold stop_realtime
    by_cases hs : (reg.lookup u.id).isSome
    · simp only [hs, if_true]
      exact Nat.le_trans (keyCount_filter_le uid _ reg) (h uid)
    · simp only [hs, if_false]
      exact h uid

theorem runOps_aux (ops : List RegOp) (reg : Registry)
    (h : ∀ uid, keyCount uid reg ≤ 1) :
    ∀ uid, keyCount uid (List.foldl applyOp reg ops) ≤ 1 := by
  induction ops generalizing reg with
  | nil => exact h
  | cons op rest ih =>
    exact ih (applyOp reg op) (applyOp_keyCount_le reg op h)

theorem start_realtime_of_registered {u : User} {ok : Bool} {reg : Registry}
    (h : (reg.lookup u.id).isSome) :
    start_realtime u ok reg = (reg, .already_active) := by
  unfold start_realtime
  simp only [h, if_true]

theorem stop_realtime_of_unregistered {u : User} {reg : Registry}
    (h : reg.lookup u.id = none) :
    stop_realtime u reg = (reg, .not_active) := by
  unfold stop_realtime
  simp only [h, Option.isSome_none, Bool.false_eq_true, if_false]

/-- C2: in every registry state reachable from the empty `active_monitors`
by a sequence of start/stop/status route calls, at most one monitor is
registered per user id; and `start_realtime` for an already-registered
user answers `already_active` and returns the registry exactly as it was,
constructing and starting no monitor. -/
theorem c2_registry_at_most_one_session :
    (∀ (ops : List RegOp) (uid : String), keyCount uid (runOps ops) ≤ 1) ∧
    (∀ (u : User) (ok : Bool) (reg : Registry),
      (reg.lookup u.id).isSome → start_realtime u ok reg = (reg, .already_active)) := by
  constructor
  · intro ops uid
    exact runOps_aux ops [] (fun _ => Nat.le_of_lt Nat.zero_lt_one) uid
  · intro u ok reg h
    exact start_realtime_of_registered h

/-- Concrete instantiation of `c2_registry_at_most_one_session`. -/
theorem c2_registry_at_most_one_session_witness :
    keyCount "7" (runOps [.start ⟨"7", "alice"⟩ true, .start ⟨"7", "alice"⟩ true]) ≤ 1 ∧
    start_realtime ⟨"7", "alice"⟩ true (runOps [.start ⟨"7", "alice"⟩ true]) =
      (runOps [.start ⟨"7", "alice"⟩ true], .already_active) :=
  ⟨c2_registry_at_most_one_session.1 _ _,
   c2_registry_at_most_one_session.2 ⟨"7", "alice"⟩ true _ (by decide)⟩

/-- C3: double-start and double-stop are distinguishable no-ops: starting
for a registered user answers `already_active`, stopping for an
unregistered user answers `not_active`, and in both cases the registry is
returned exactly as it was. -/
theorem c3_double_start_double_stop_noop :
    ∀ (u : User) (ok : Bool) (reg : Registry),
      ((reg.lookup u.id).isSome → start_realtime u ok reg = (reg, .already_active)) ∧
      (reg.lookup u.id = none → stop_realtime u reg = (reg, .not_active)) := by
  intro u ok reg
  exact ⟨fun h => start_realtime_of_registered h, fun h => stop_realtime_of_unregistered h⟩

/-- Concrete instantiation of `c3_double_start_double_stop_noop`. -/
theorem c3_double_start_double_stop_noop_witness :
    start_realtime ⟨"9", "bob"⟩ true
        [("9", start_monitoring (mkMonitor ⟨"9", "bob"⟩ true false true))] =
      ([("9", start_monitoring (mkMonitor ⟨"9", "bob"⟩ true false true))], .already_active) ∧
    stop_realtime ⟨"9", "bob"⟩ [] = ([], .not_active) :=
  ⟨(c3_double_start_double_stop_noop ⟨"9", "bob"⟩ true _).1 (by decide),
   (c3_double_start_double_stop_noop ⟨"9", "bob"⟩ true []).2 rfl⟩

/-- The payload emitted on the `real_time_update` socket event, scoped to
the user's room. -/
structure EmitPayload where
  stress_level : String
  confidence : ℚ
  timestamp : Nat
  sensor_data : SensorData
  factors : List String
  room : String
deriving Repr, DecidableEq

/-- The world a running monitoring loop acts on: the monitor's own state,
the `predictions` table behind `database.store_prediction`, and the
stream of socket broadcasts. -/
structure LoopWorld where
  monitor : Monitor
  db : List PredRow
  emits : List EmitPayload
deriving Repr, DecidableEq

/-- Inputs and fault oracles for one iteration of `_monitoring_loop`:
the reading `_get_live_sensor_data` would produce, whether that call
raises (`read_exc`, caught by the loop's outer handler), whether the
`database.store_prediction` call raises (`store_exc`, inner handler),
whether SQLite fails inside `store_prediction` (`db_ok`), whether
`socketio.emit` raises (`emit_exc`, inner handler), the fault oracle for
`predict_stress`, and the clock. -/
structure TickEnv where
  reading : SensorData
  read_exc : Bool
  store_exc : Bool
  db_ok : Bool
  emit_exc : Bool
  predict_exc : Option String
  now : Nat
deriving Repr, DecidableEq

/-- The first statement of the loop body after the feed read
(`services.py` line 107): `self.latest_sensor_data = sensor_data`.  It
runs before classification, persistence and broadcast. -/
def tickAssignLatest (w : LoopWorld) (reading : SensorData) : LoopWorld :=
  { w with monitor := { w.monitor with latest_sensor_data := some reading } }

/-- The remainder of the loop body (`services.py` lines 109-134): if both
an ML service and the database module are bound, classify, attempt to
persist (inner `try`: a raise is logged and skipped), and, if a socket is
bound, attempt to broadcast (inner `try`: a raise is logged and
skipped); otherwise do nothing further. -/
def tickRest (w : LoopWorld) (sensor_data : SensorData) (env : TickEnv) : LoopWorld :=
  if w.monitor.has_ml && w.monitor.has_database then
    let prediction := predict_stress sensor_data "RandomForest" env.now env.predict_exc
    let db' :=
      if env.store_exc then w.db
      else
        (store_prediction prediction.stress_level prediction.confidence sensor_data
          w.monitor.user.id prediction.model_used prediction.factors env.now env.db_ok w.db).1
    let emits' :=
      if w.monitor.has_socketio then
        if env.emit_exc then w.emits
        else
          w.emits ++ [{ stress_level := prediction.stress_level
                        confidence := prediction.confidence
                        timestamp := env.now
                        sensor_data := sensor_data
                        factors := prediction.factors
                        room := "user_" ++ w.monitor.user.id }]
      else w.emits
    { w with db := db', emits := emits' }
  else w

/-- One iteration of `_monitoring_loop` (`services.py` lines 104-140).
If the feed read raises, the outer handler logs, sleeps and leaves the
world untouched; otherwise the fresh reading is cached first and the rest
of the tick runs on the updated world. -/
def tick (w : LoopWorld) (env : TickEnv) : LoopWorld :=
  if env.read_exc then w
  else tickRest (tickAssignLatest w env.reading) env.reading env

/-- The `while self.active` loop over a finite schedule of tick
environments: each iteration first tests the cooperative flag, then runs
one tick. -/
def runLoop (w : LoopWorld) (envs : List TickEnv) : LoopWorld :=
  match envs with
  | [] => w
  | env :: rest => if w.monitor.active then runLoop (tick w env) rest else w

theorem tickRest_monitor (w : LoopWorld) (sd : SensorData) (env : TickEnv) :
    (tickRest w sd env).monitor = w.monitor := by
  unfold tickRest
  cases h : (w.monitor.has_ml && w.monitor.has_database) <;> simp [h]

theorem tick_active (w : LoopWorld) (env : TickEnv) :
    (tick w env).monitor.active = w.monitor.active := by
  unfold tick
  cases h : env.read_exc <;> simp [h, tickRest_monitor, tickAssignLatest]

theorem runLoop_active (w : LoopWorld) (envs : List TickEnv) :
    (runLoop w envs).monitor.active = w.monitor.active := by
  induction envs generalizing w with
  | nil => rfl
  | cons env rest ih =>
    unfold runLoop
    cases h : w.monitor.active with
    | false => simp [h]
    | true =>
      simp [h]
      rw [ih (tick w env), tick_active, h]

/-- The user of the concrete scenarios. -/
def uEx : User := { id := "42", username := "subject42" }

/-- A mock feed reading with heart rate 95 (classified `stress` with
confidence 0.85 by `predict_stress`). -/
def rEx (t : Nat) : SensorData :=
  { heart_rate := some 95
    eda := some (3/10)
    temperature := 32
    respiration := 16
    timestamp := t
    source := "simulated" }

/-- A fault-free tick environment at clock `t` feeding `rEx t`. -/
def envOk (t : Nat) : TickEnv :=
  { reading := rEx t
    read_exc := false
    store_exc := false
    db_ok := true
    emit_exc := false
    predict_exc := none
    now := t }

/-- A freshly started monitor for `uEx` (ML service bound, `socketio`
`None` as passed by `start_realtime`, database import succeeded) over an
empty predictions table. -/
def wEx : LoopWorld :=
  { monitor := start_monitoring (mkMonitor uEx true false true)
    db := []
    emits := [] }

/-- Three ticks in which the persistence sink raises on tick 2 only. -/
def scenarioEnvs : List TickEnv :=
  [envOk 1, { envOk 2 with store_exc := true }, envOk 3]

/-- C4: per-tick faults are never fatal.  A tick never changes the
cooperative flag, so no fault terminates the session; the loop simply
proceeds from the ticked world.  A feed-read fault skips the whole tick
body, a persistence fault leaves the table unchanged, a broadcast fault
leaves the emit stream unchanged — and in each case the loop continues.
Concretely, with the persistence sink raising on tick 2 of 3, ticks 1
and 3 still produce records (2 rows total), the monitor is still active
and the status route still reports monitoring. -/
theorem c4_tick_faults_never_fatal :
    (∀ (w : LoopWorld) (env : TickEnv), (tick w env).monitor.active = w.monitor.active) ∧
    (∀ (w : LoopWorld) (envs : List TickEnv),
      (runLoop w envs).monitor.active = w.monitor.active) ∧
    (∀ (w : LoopWorld) (env : TickEnv) (rest : List TickEnv),
      runLoop w (env :: rest) = if w.monitor.active then runLoop (tick w env) rest else w) ∧
    (∀ (w : LoopWorld) (env : TickEnv), tick w { env with read_exc := true } = w) ∧
    (∀ (w : LoopWorld) (env : TickEnv), (tick w { env with store_exc := true }).db = w.db) ∧
    (∀ (w : LoopWorld) (env : TickEnv), (tick w { env with emit_exc := true }).emits = w.emits) ∧
    (runLoop wEx scenarioEnvs).db.length = 2 ∧
    (runLoop wEx scenarioEnvs).monitor.active = true ∧
    monitoring_status uEx [(uEx.id, (runLoop wEx scenarioEnvs).monitor)] 9 false none ≠
      .inactive := by
  refine ⟨tick_active, runLoop_active, fun w env rest => rfl, fun w env => rfl,
    ?_, ?_, by decide, by decide, by decide⟩
  · intro w env
    unfold tick
    cases h : env.read_exc with
    | true => simp [h]
    | false =>
      simp only [h, Bool.false_eq_true, if_false]
      unfold tickRest tickAssignLatest
      cases hc : (w.monitor.has_ml && w.monitor.has_database) <;> simp [hc]
  · intro w env
    unfold tick
    cases h : env.read_exc with
    | true => simp [h]
    | false =>
      simp only [h, Bool.false_eq_true, if_false]
      unfold tickRest tickAssignLatest
      cases hc : (w.monitor.has_ml && w.monitor.has_database) <;>
        cases hs : w.monitor.has_socketio <;> simp [hc, hs]

/-- Concrete instantiation of `c4_tick_faults_never_fatal`: a read fault
leaves the scenario world untouched, and the faulty-tick-2 scenario
still yields two records. -/
theorem c4_tick_faults_never_fatal_witness :
    tick wEx { envOk 1 with read_exc := true } = wEx ∧
    (runLoop wEx scenarioEnvs).db.length = 2 :=
  ⟨c4_tick_faults_never_fatal.2.2.2.1 wEx (envOk 1),
   c4_tick_faults_never_fatal.2.2.2.2.2.2.1⟩

/-- C6: `get_latest_data` before any tick has cached a reading returns
exactly the initial placeholder (`baseline`, confidence 0.4, status
`No data yet`), and on every monitor state — including when the guarded
block raises — it returns a well-defined snapshot (one of the three
dictionary shapes of the source) rather than propagating an exception. -/
theorem c6_get_latest_placeholder_total :
    ∀ (m : Monitor) (now : Nat) (exc : Bool) (pe : Option String),
      (m.latest_sensor_data = none → get_latest_data m now exc pe = placeholderSnapshot now) ∧
      ((get_latest_data m now exc pe).status = "No data yet" ∨
        (get_latest_data m now exc pe).status = "Active" ∨
        (get_latest_data m now exc pe).status = "Error") := by
  intro m now exc pe
  constructor
  · intro h
    unfold get_latest_data
    rw [h]
  · unfold get_latest_data
    cases hl : m.latest_sensor_data with
    | none => exact Or.inl rfl
    | some sd =>
      cases he : exc with
      | true => exact Or.inr (Or.inr rfl)
      | false => exact Or.inr (Or.inl rfl)

/-- Concrete instantiation of `c6_get_latest_placeholder_total`: a fresh
monitor has no cached reading and gets the placeholder. -/
theorem c6_get_latest_placeholder_total_witness :
    (mkMonitor uEx true false true).latest_sensor_data = none ∧
    get_latest_data (mkMonitor uEx true false true) 5 false none = placeholderSnapshot 5 :=
  ⟨rfl, (c6_get_latest_placeholder_total (mkMonitor uEx true false true) 5 false none).1 rfl⟩

/-- A calm reading (heart rate 60, EDA 0.2, classified `baseline`). -/
def rCalm : SensorData :=
  { heart_rate := some 60
    eda := some (1/5)
    temperature := 32
    respiration := 16
    timestamp := 2
    source := "simulated" }

/-- A fault-free tick environment feeding `rCalm`. -/
def envCalm : TickEnv :=
  { reading := rCalm
    read_exc := false
    store_exc := false
    db_ok := true
    emit_exc := false
    predict_exc := none
    now := 2 }

/-- A world that has completed tick 1 on the stressed reading `rEx 1`. -/
def wC9 : LoopWorld :=
  { monitor := { mkMonitor uEx true false true with
                   active := true
                   latest_sensor_data := some (rEx 1) }
    db := []
    emits := [] }

/-- C9 counterexample: the snapshot visible through `get_latest_data` IS
replaced mid-tick.  `tickAssignLatest wC9 rCalm` is exactly the
intermediate state of tick 2 (the tick factors through it), and at that
point the reader-visible classification has already flipped from
`stress` (tick 1's reading) to `baseline` (tick 2's reading) although
tick 2's persistence and broadcast steps have not happened (table and
emit stream unchanged). -/
theorem c9_snapshot_replaced_mid_tick_counterexample :
    tick wC9 envCalm = tickRest (tickAssignLatest wC9 rCalm) rCalm envCalm ∧
    (get_latest_data wC9.monitor 2 false none).stress_level = "stress" ∧
    (get_latest_data (tickAssignLatest wC9 rCalm).monitor 2 false none).stress_level =
      "baseline" ∧
    (tickAssignLatest wC9 rCalm).db = wC9.db ∧
    (tickAssignLatest wC9 rCalm).emits = wC9.emits := by
  refine ⟨rfl, rfl, ?_, rfl, rfl⟩
  show (get_latest_data { wC9.monitor with latest_sensor_data := some rCalm } 2 false
    none).stress_level = "baseline"
  simp only [get_latest_data, tickAssignLatest, wC9, rCalm, rEx, mkMonitor, uEx,
    predict_stress, predict_stress_body]
  norm_num

/-- C9 amended: the loop writes the fresh reading into the
reader-visible cache immediately after the feed read, at the start of the
tick and before classification, persistence and broadcast run: every
fault-free tick factors through `tickAssignLatest`, which changes only
the cached reading and touches neither the table nor the emit stream. -/
theorem c9_snapshot_updated_before_persist :
    (∀ (w : LoopWorld) (env : TickEnv),
      tick w env =
        if env.read_exc then w
        else tickRest (tickAssignLatest w env.reading) env.reading env) ∧
    (∀ (w : LoopWorld) (r : SensorData),
      (tickAssignLatest w r).monitor.latest_sensor_data = some r ∧
      (tickAssignLatest w r).db = w.db ∧
      (tickAssignLatest w r).emits = w.emits) :=
  ⟨fun _ _ => rfl, fun _ _ => ⟨rfl, rfl, rfl⟩⟩

/-- C10: when the lazy `import database` fails, the monitor still
constructs (inactive, database handle `None`) and still starts; every
fault-free tick of such a monitor only caches the fresh reading — no
classification, persistence or broadcast happens even with an ML service
and a socket channel bound — and running the loop never changes the
active flag. -/
theorem c10_no_database_collect_only :
    ∀ (u : User) (ml sock : Bool) (m : Monitor) (dbr : List PredRow)
      (ems : List EmitPayload) (env : TickEnv) (r : SensorData)
      (w : LoopWorld) (envs : List TickEnv),
      (mkMonitor u ml sock false).has_database = false ∧
      (mkMonitor u ml sock false).active = false ∧
      (start_monitoring (mkMonitor u ml sock false)).active = true ∧
      tick { monitor := { m with has_database := false }, db := dbr, emits := ems }
          { env with read_exc := false, reading := r } =
        { monitor := { m with has_database := false, latest_sensor_data := some r },
          db := dbr, emits := ems } ∧
      (runLoop w envs).monitor.active = w.monitor.active := by
  intro u ml sock m dbr ems env r w envs
  refine ⟨rfl, rfl, rfl, ?_, runLoop_active w envs⟩
  unfold tick tickRest tickAssignLatest
  simp

/-- Control position of `_monitoring_loop` at the granularity at which
the cooperative flag can be observed: `check_top` is the `while
self.active` test (followed, when the flag is set, by one tick body,
which runs without consulting the flag); `sleeping r` means `r` time
units of the inter-tick `time.sleep` remain; `exited` means the loop has
returned. -/
inductive LoopPhase
  | check_top
  | sleeping (remaining : Nat)
  | exited
deriving Repr, DecidableEq

/-- Loop-control state: the current phase, the cooperative cancellation
flag (`self.active`), and how many tick bodies have started. -/
structure LoopCtl where
  phase : LoopPhase
  active : Bool
  ticks_started : Nat
deriving Repr, DecidableEq

/-- The inter-tick wait of the source, `time.sleep(3)`, in time units. -/
def tickInterval : Nat := 3

/-- One unit of progress of `_monitoring_loop`.  The flag is read ONLY at
`check_top`; each `sleeping` step elapses one unit of `time.sleep`
without consulting the flag, because `time.sleep` offers no cancellation
hook in the source. -/
def loopStep (s : LoopCtl) : LoopCtl :=
  match s.phase with
  | .check_top =>
    if s.active then
      { s with phase := .sleeping tickInterval, ticks_started := s.ticks_started + 1 }
    else { s with phase := .exited }
  | .sleeping (r + 1) => { s with phase := .sleeping r }
  | .sleeping 0 => { s with phase := .check_top }
  | .exited => s

/-- Effect of `RealTimeStressMonitor.stop_monitoring` on the loop-control
state: clear the flag, touching nothing else. -/
def stopFlag (s : LoopCtl) : LoopCtl :=
  { s with active := false }

theorem loopStep_active (s : LoopCtl) : (loopStep s).active = s.active := by
  rcases s with ⟨ph, a, t⟩
  cases ph with
  | check_top => cases a <;> rfl
  | sleeping r => cases r <;> rfl
  | exited => rfl

theorem loopStep_ticks_of_inactive (s : LoopCtl) (h : s.active = false) :
    (loopStep s).ticks_started = s.ticks_started := by
  rcases s with ⟨ph, a, t⟩
  cases h
  cases ph with
  | check_top => rfl
  | sleeping r => cases r <;> rfl
  | exited => rfl

theorem iterate_ticks_of_inactive (n : Nat) (s : LoopCtl) (h : s.active = false) :
    (loopStep^[n] s).ticks_started = s.ticks_started := by
  induction n generalizing s with
  | zero => rfl
  | succ n ih =>
    rw [Function.iterate_succ_apply]
    rw [ih (loopStep s) (by rw [loopStep_active]; exact h),
      loopStep_ticks_of_inactive s h]

theorem exit_after_sleep (r : Nat) (s : LoopCtl) (h : s.active = false)
    (hp : s.phase = .sleeping r) : (loopStep^[r + 2] s).phase = .exited := by
  induction r generalizing s with
  | zero =>
    rcases s with ⟨ph, a, t⟩
    cases hp
    cases h
    rfl
  | succ r ih =>
    rcases s with ⟨ph, a, t⟩
    cases hp
    cases h
    show (loopStep^[(r + 2) + 1] (⟨.sleeping (r + 1), false, t⟩ : LoopCtl)).phase = .exited
    rw [Function.iterate_succ_apply]
    exact ih ⟨.sleeping r, false, t⟩ rfl rfl

theorem exit_after_check (s : LoopCtl) (h : s.active = false)
    (hp : s.phase = .check_top) : (loopStep s).phase = .exited := by
  rcases s with ⟨ph, a, t⟩
  cases hp
  cases h
  rfl

/-- The loop-control state just after `stop_monitoring` is called at the
very start of the inter-tick wait following tick 1. -/
def sC5 : LoopCtl :=
  stopFlag { phase := .sleeping tickInterval, active := true, ticks_started := 1 }

/-- C5 counterexample: cancellation is NOT observed during the inter-tick
wait.  With the flag cleared at the very start of a `time.sleep`
(`sC5`), the loop is still not exited after the full `tickInterval`
units of the wait have elapsed — every one of those units is waited out
and the flag is only seen at the next `check_top`, two steps later. -/
theorem c5_sleep_ignores_cancellation_counterexample :
    sC5.active = false ∧
    (loopStep^[1] sC5).phase = .sleeping 2 ∧
    (loopStep^[2] sC5).phase = .sleeping 1 ∧
    (loopStep^[3] sC5).phase = .sleeping 0 ∧
    (loopStep^[tickInterval] sC5).phase ≠ .exited ∧
    (loopStep^[tickInterval + 1] sC5).phase = .check_top ∧
    (loopStep^[tickInterval + 2] sC5).phase = .exited := by
  refine ⟨rfl, rfl, rfl, rfl, ?_, rfl, rfl⟩
  decide

/-- C5 amended: after `stop_monitoring` clears the flag, no new tick ever
begins and the loop exits at the next top-of-loop check — an in-flight
wait is allowed to finish, bounding exit by one tick interval plus two
steps — but the flag is observed ONLY at the top of each iteration, not
during the inter-tick `time.sleep`, so stopping during the wait requires
waiting out the remainder of the full tick interval. -/
theorem c5_cancellation_observed_at_loop_top :
    ∀ (s : LoopCtl) (n r : Nat),
      s.active = false →
      ((loopStep^[n] s).ticks_started = s.ticks_started ∧
       (s.phase = .sleeping r → (loopStep^[r + 2] s).phase = .exited) ∧
       (s.phase = .check_top → (loopStep s).phase = .exited)) := by
  intro s n r h
  exact ⟨iterate_ticks_of_inactive n s h,
    fun hp => exit_after_sleep r s h hp,
    fun hp => exit_after_check s h hp⟩

/-- Concrete instantiation of `c5_cancellation_observed_at_loop_top` at
the stopped state `sC5`. -/
theorem c5_cancellation_observed_at_loop_top_witness :
    sC5.active = false ∧
    (loopStep^[5] sC5).ticks_started = sC5.ticks_started ∧
    (loopStep^[tickInterval + 2] sC5).phase = .exited :=
  ⟨rfl, (c5_cancellation_observed_at_loop_top sC5 5 tickInterval rfl).1,
   (c5_cancellation_observed_at_loop_top sC5 5 tickInterval rfl).2.1 rfl⟩

end StressApp
